import Mathlib

/-
Verification development for the fluid_controller firmware control core.

Shallow embedding notes:
- C float arithmetic is modelled over the exact rationals; decimal float
  literals of the source become the corresponding rational literals.
- The C library function expf is not algebraic, so every embedded function
  that evaluates it takes an explicit parameter ex : Rat -> Rat standing for
  the exponential map.  All theorems below either hold for every ex, or are
  evaluated on control paths whose guard branches provably never consult ex.
- The Arduino millis() clock is modelled by passing the current timestamp
  now : Nat into each tick; unsigned subtraction (now - lastTime) coincides
  with truncated Nat subtraction for a monotone, pre-wrap clock.
- Serial logging, the OLED display and the I2C register writes are pure
  sinks; pump commands are modelled as an explicit command list.
-/

/-! Configuration constants, from config.h (newest revision). -/

def kConstantVoltage : ℚ := 80

def BARTELS_FREQ : ℚ := 300
def BARTELS_ABSOLUTE_MAX : ℚ := 150
def BARTELS_MAX_VOLTAGE : ℚ := 150
def BARTELS_MIN_VOLTAGE : ℚ := 0

def EXP_KP_A : ℚ := 0
def EXP_KP_K : ℚ := 0
def EXP_KP_B : ℚ := 0
def EXP_KP_C : ℚ := 0

def EXP_KI_A : ℚ := 1/1000
def EXP_KI_K : ℚ := 23/100
def EXP_KI_B : ℚ := 40
def EXP_KI_C : ℚ := 0

def EXP_KD_A : ℚ := 0
def EXP_KD_K : ℚ := 0
def EXP_KD_B : ℚ := 0
def EXP_KD_C : ℚ := 0

def FILTER_T_REF : ℚ := 1/20
def FILTER_SECONDARY_A2 : ℚ := 0
def FILTER_SECONDARY_K2 : ℚ := 1/2
def FILTER_B2_GUESS : ℚ := 3

def EMA_ALPHA : ℚ := 17/20

def PID_DERIV_FILTER_ALPHA : ℚ := 4/5

/-- The 1e-9 guard threshold used throughout the source. -/
def EPS9 : ℚ := 1/1000000000

/-! Data model. -/

/-- filter.h: slope-matched first-pole filter state. -/
structure DynamicLPFilter where
  state : ℚ
  currentAlpha : ℚ
  deriving DecidableEq, Repr

/-- filter.h: fixed-alpha EMA second pole state. -/
structure SimpleEMA where
  state : ℚ
  primed : Bool
  deriving DecidableEq, Repr

/-- filter.h: two-pole composite convenience wrapper. -/
structure TwoPoleFilter where
  dyn : DynamicLPFilter
  ema : SimpleEMA
  deriving DecidableEq, Repr

/-- pid.cpp module state: gains, derivative filter, integrator, tracking
variables, and the globals exported for the anti-windup bookkeeping. -/
structure PIDState where
  Kp : ℚ
  Ki : ℚ
  Kd : ℚ
  derivFilterAlphaNormal : ℚ
  dErrorFilteredNormal : ℚ
  integralTerm : ℚ
  lastError : ℚ
  lastTimeNormal : ℕ
  g_lastIntegralIncrement : ℚ
  g_lastErrorForAW : ℚ
  deriving DecidableEq, Repr

/-- The SystemState fields written by the exp controller (system_state.h). -/
structure SysFields where
  pGain : ℚ
  iGain : ℚ
  dGain : ℚ
  filteredError : ℚ
  currentAlpha : ℚ
  deriving DecidableEq, Repr

/-- Combined state of the exp-control module: its file statics s_lastKi and
g_errSmooth, the filter module static s_b2, the error filter instance
s_errorFilter, the pid.cpp state, and the SystemState fields it writes. -/
structure CtrlState where
  s_lastKi : ℚ
  g_errSmooth : ℚ
  s_b2 : ℚ
  errorFilter : DynamicLPFilter
  pid : PIDState
  sys : SysFields
  deriving DecidableEq, Repr

/-- Commands reaching the Bartels pump driver. -/
inductive PumpCmd where
  | stop : PumpCmd
  | run : ℚ → PumpCmd
  deriving DecidableEq, Repr

/-! gain.cpp. -/

/-- gain.cpp lines 24-40: reciprocal-exponential curve
f(t) = A + (K - A) * exp(-1 / (B * (t - c))) with the two near-zero
denominator guards and no output clamp. -/
def exponentialFunctionReciprocal (ex : ℚ → ℚ) (t A K B c : ℚ) : ℚ :=
  if |B| < EPS9 then A
  else
    let denominator := B * (t - c)
    if |denominator| < EPS9 then A
    else A + (K - A) * ex (-1 / denominator)

/-! exp_control.cpp static gain functions.  The three statics getExpKp,
getExpKi, getExpKd share one body (guards, curve evaluation, then the
sequential clamp "if (val < A) val = A; if (val > K) val = K;"), applied to
the per-gain config constants; the shared body is factored here. -/

/-- Body of the exp_control.cpp static gain functions (lines 194-222):
guards returning A, the curve value, then the sequential two-sided clamp. -/
def expGainClamped (ex : ℚ → ℚ) (A K B C x : ℚ) : ℚ :=
  if |B| < EPS9 then A
  else
    let denom := B * (x - C)
    if |denom| < EPS9 then A
    else
      let val := A + (K - A) * ex (-1 / denom)
      let val1 := if val < A then A else val
      if val1 > K then K else val1

/-- exp_control.cpp getExpKp (lines 194-222). -/
def getExpKp (ex : ℚ → ℚ) (x : ℚ) : ℚ :=
  expGainClamped ex EXP_KP_A EXP_KP_K EXP_KP_B EXP_KP_C x

/-- exp_control.cpp getExpKi (lines 224-246). -/
def getExpKi (ex : ℚ → ℚ) (x : ℚ) : ℚ :=
  expGainClamped ex EXP_KI_A EXP_KI_K EXP_KI_B EXP_KI_C x

/-- exp_control.cpp getExpKd (lines 248-270). -/
def getExpKd (ex : ℚ → ℚ) (x : ℚ) : ℚ :=
  expGainClamped ex EXP_KD_A EXP_KD_K EXP_KD_B EXP_KD_C x

/-! filter.cpp (newest revision: adaptive pole + EMA pole + two-pole
wrapper). -/

/-- filter.cpp customExpDerivative: derivative of f at t.  Division by a
zero denominator only arises under the t guard; Rat division by zero is 0. -/
def customExpDerivative (ex : ℚ → ℚ) (t A K B : ℚ) : ℚ :=
  if t ≤ EPS9 then 0
  else
    let factor := (K - A) * ex (-1 / (B * t))
    factor / (B * t * t)

/-- filter.cpp computeB2ViaSlope bisection loop, fuel-indexed (60 rounds).
Carries the running lo, hi bounds and the last mid. -/
def computeB2Loop (ex : ℚ → ℚ) (slopeP A2 K2 Tref : ℚ) :
    ℕ → ℚ → ℚ → ℚ → ℚ
  | 0, _, _, mid => mid
  | n + 1, lo, hi, _ =>
    let mid := (lo + hi) / 2
    let slope2 := customExpDerivative ex Tref A2 K2 mid
    let lo2 := if slope2 > slopeP then mid else lo
    let hi2 := if slope2 > slopeP then hi else mid
    if hi2 - lo2 < 1/1000000 then mid
    else computeB2Loop ex slopeP A2 K2 Tref n lo2 hi2 mid

/-- filter.cpp computeB2ViaSlope: slope-match the secondary curve to the
primary Ki curve at Tref by bisection over B2 in the bracket 1e-3 .. 100. -/
def computeB2ViaSlope (ex : ℚ → ℚ) (A1 K1 B1 A2 K2 Tref : ℚ) : ℚ :=
  let slopeP := customExpDerivative ex Tref A1 K1 B1
  computeB2Loop ex slopeP A2 K2 Tref 60 (1/1000) 100 FILTER_B2_GUESS

/-- filter.cpp computeAlphaSecondary: adaptive coefficient, with the
near-zero pass-through guard and the sequential clamp to the unit range. -/
def computeAlphaSecondary (ex : ℚ → ℚ) (s_b2 e A2 K2 : ℚ) : ℚ :=
  if e < EPS9 then 1
  else
    let val := A2 + (K2 - A2) * ex (-1 / (s_b2 * e))
    let val1 := if val < 0 then 0 else val
    if val1 > 1 then 1 else val1

/-- filter.cpp initDynamicLPFilter: recompute s_b2 by slope-matching, then
zero the filter state.  Returns the new module static and filter state. -/
def initDynamicLPFilter (ex : ℚ → ℚ) : ℚ × DynamicLPFilter :=
  let b2 := computeB2ViaSlope ex EXP_KI_A EXP_KI_K EXP_KI_B
    FILTER_SECONDARY_A2 FILTER_SECONDARY_K2 FILTER_T_REF
  (b2, { state := 0, currentAlpha := 0 })

/-- filter.cpp updateDynamicLPFilter: one adaptive low-pass step.  Returns
the output together with the updated filter state. -/
def updateDynamicLPFilter (ex : ℚ → ℚ) (s_b2 : ℚ) (f : DynamicLPFilter)
    (inp : ℚ) : ℚ × DynamicLPFilter :=
  let a := computeAlphaSecondary ex s_b2 |inp| FILTER_SECONDARY_A2
    FILTER_SECONDARY_K2
  let out := a * inp + (1 - a) * f.state
  (out, { state := out, currentAlpha := a })

/-- filter.cpp resetEMA. -/
def resetEMA : SimpleEMA := { state := 0, primed := false }

/-- filter.cpp updateEMA: seed state to the input on the first call after a
reset, then the fixed-coefficient moving average. -/
def updateEMA (e : SimpleEMA) (inp : ℚ) : ℚ × SimpleEMA :=
  if !e.primed then (inp, { state := inp, primed := true })
  else
    let s := EMA_ALPHA * inp + (1 - EMA_ALPHA) * e.state
    (s, { state := s, primed := true })

/-- filter.cpp initTwoPoleFilter. -/
def initTwoPoleFilter (ex : ℚ → ℚ) : ℚ × TwoPoleFilter :=
  let r := initDynamicLPFilter ex
  (r.1, { dyn := r.2, ema := resetEMA })

/-- filter.cpp updateTwoPoleFilter: stage 2 applied to the stage 1 output. -/
def updateTwoPoleFilter (ex : ℚ → ℚ) (s_b2 : ℚ) (f : TwoPoleFilter)
    (inp : ℚ) : ℚ × TwoPoleFilter :=
  let r1 := updateDynamicLPFilter ex s_b2 f.dyn inp
  let r2 := updateEMA f.ema r1.1
  (r2.1, { dyn := r1.2, ema := r2.2 })

/-! pid.cpp. -/

/-- pid.cpp initPID: reset integrator, derivative filter, tracking and
anti-windup globals; gains are left to be set externally. -/
def initPID (st : PIDState) (now : ℕ) : PIDState :=
  { st with
    derivFilterAlphaNormal := PID_DERIV_FILTER_ALPHA
    dErrorFilteredNormal := 0
    integralTerm := 0
    lastError := 0
    lastTimeNormal := now
    g_lastIntegralIncrement := 0
    g_lastErrorForAW := 0 }

/-- pid.cpp setPIDGains. -/
def setPIDGains (p i d : ℚ) (st : PIDState) : PIDState :=
  { st with Kp := p, Ki := i, Kd := d }

/-- pid.cpp lines 62-66: dt from the millisecond clock, floored at 1 ms
when the elapsed time is zero (non-positive). -/
def pidDt (now lastTimeNormal : ℕ) : ℚ :=
  let dt : ℚ := ((now - lastTimeNormal : ℕ) : ℚ) / 1000
  if dt ≤ 0 then 1/1000 else dt

/-- Outputs of one pid.cpp updatePIDNormal call. -/
structure PIDOut where
  fraction : ℚ
  pTermOut : ℚ
  iTermOut : ℚ
  dTermOut : ℚ
  deriving DecidableEq, Repr

/-- pid.cpp updatePIDNormal: one PID iteration with derivative filtering;
the returned fraction is clamped to the unit interval inside this function
(lines 86-88). -/
def updatePIDNormal (st : PIDState) (error : ℚ) (now : ℕ) :
    PIDOut × PIDState :=
  let dt := pidDt now st.lastTimeNormal
  let Pout := st.Kp * error
  let integralIncrement := error * dt
  let integ := st.integralTerm + integralIncrement
  let Iout := st.Ki * integ
  let dErrorRaw := (error - st.lastError) / dt
  let dF := st.derivFilterAlphaNormal * dErrorRaw
    + (1 - st.derivFilterAlphaNormal) * st.dErrorFilteredNormal
  let Dout := st.Kd * dF
  let rawOutput := Pout + Iout + Dout
  let rawClamped := if rawOutput < 0 then 0
    else if rawOutput > 1 then 1 else rawOutput
  ({ fraction := rawClamped, pTermOut := Pout, iTermOut := Iout,
     dTermOut := Dout },
   { st with
     integralTerm := integ
     lastError := error
     lastTimeNormal := now
     dErrorFilteredNormal := dF
     g_lastIntegralIncrement := integralIncrement
     g_lastErrorForAW := error })

/-! exp_control.cpp. -/

/-- exp_control.cpp lines 126-141: rescale the integrator when Ki changed
significantly, skipping the ratio when either Ki magnitude is at most 1e-9;
s_lastKi is updated only inside the changed branch.  Returns the new
integrator value and the new s_lastKi. -/
def rescaleIntegrator (s_lastKi ki integralTerm : ℚ) : ℚ × ℚ :=
  if |s_lastKi - ki| > EPS9 then
    let integ2 :=
      if |s_lastKi| > EPS9 ∧ |ki| > EPS9 then integralTerm * (s_lastKi / ki)
      else integralTerm
    (integ2, ki)
  else (integralTerm, s_lastKi)

/-- exp_control.cpp lines 154-161: saturation check of the returned PID
fraction, with the integrator correction in the high branch.  Returns the
clamped fraction and the new integrator value. -/
def saturationClamp (pidFraction integralTerm g_lastIntegralIncrement : ℚ) :
    ℚ × ℚ :=
  if pidFraction > 1 then (1, integralTerm - g_lastIntegralIncrement)
  else if pidFraction < 0 then (0, integralTerm)
  else (pidFraction, integralTerm)

/-- exp_control.cpp lines 163-174: fraction to voltage, raising a positive
command below the minimum and capping at the maximum. -/
def voltageFromFraction (pidFraction : ℚ) : ℚ :=
  let v := pidFraction * BARTELS_MAX_VOLTAGE
  let v1 := if v > 0 ∧ v < BARTELS_MIN_VOLTAGE then BARTELS_MIN_VOLTAGE
    else v
  if v1 > BARTELS_MAX_VOLTAGE then BARTELS_MAX_VOLTAGE else v1

/-- exp_control.cpp initExpController: zero the SystemState gain and filter
fields, reset the PID module, clear s_lastKi, re-init the dynamic filter
(recomputing s_b2), and clear the smoothed-error log value. -/
def initExpController (ex : ℚ → ℚ) (st : CtrlState) (now : ℕ) : CtrlState :=
  let fr := initDynamicLPFilter ex
  { st with
    sys := { pGain := 0, iGain := 0, dGain := 0, filteredError := 0,
             currentAlpha := 0 }
    pid := initPID st.pid now
    s_lastKi := 0
    s_b2 := fr.1
    errorFilter := fr.2
    g_errSmooth := 0 }

/-- Per-tick outputs of updateExpController: the reference out-parameters
plus the pump commands issued during the call. -/
structure ExpOut where
  desiredVoltage : ℚ
  pidFraction : ℚ
  pTermOut : ℚ
  iTermOut : ℚ
  dTermOut : ℚ
  cmds : List PumpCmd
  deriving DecidableEq, Repr

/-- exp_control.cpp updateExpController: the ON-EXP control tick.  When
systemOn is false it stops the pump and zeroes the out-parameters; when on
it filters the error (one adaptive low-pass stage), schedules the gains,
rescales the integrator on a Ki change, runs the PID update, applies the
saturation check, maps the fraction to a voltage and commands the pump. -/
def updateExpController (ex : ℚ → ℚ) (st : CtrlState)
    (flow flowSetpoint : ℚ) (systemOn : Bool) (now : ℕ) :
    CtrlState × ExpOut :=
  if !systemOn then
    (st, { desiredVoltage := 0, pidFraction := 0, pTermOut := 0,
           iTermOut := 0, dTermOut := 0, cmds := [PumpCmd.stop] })
  else
    let errRaw := flowSetpoint - flow
    let fr := updateDynamicLPFilter ex st.s_b2 st.errorFilter errRaw
    let errFiltered := fr.1
    let filt2 := fr.2
    let absE := |errFiltered|
    let kp := getExpKp ex absE
    let ki := getExpKi ex absE
    let kd := getExpKd ex absE
    let rsc := rescaleIntegrator st.s_lastKi ki st.pid.integralTerm
    let pid2 := setPIDGains kp ki kd { st.pid with integralTerm := rsc.1 }
    let upd := updatePIDNormal pid2 errFiltered now
    let sat := saturationClamp upd.1.fraction upd.2.integralTerm
      upd.2.g_lastIntegralIncrement
    let desiredVoltage := voltageFromFraction sat.1
    ({ st with
       g_errSmooth := errFiltered
       errorFilter := filt2
       s_lastKi := rsc.2
       pid := { upd.2 with integralTerm := sat.2 }
       sys := { pGain := kp, iGain := ki, dGain := kd,
                filteredError := errFiltered,
                currentAlpha := filt2.currentAlpha } },
     { desiredVoltage := desiredVoltage, pidFraction := sat.1,
       pTermOut := upd.1.pTermOut, iTermOut := upd.1.iTermOut,
       dTermOut := upd.1.dTermOut,
       cmds := [PumpCmd.run desiredVoltage] })

/-! constant_voltage_control.cpp. -/

/-- constant_voltage_control.cpp updateConstantVoltageControl: stop the
pump when off; otherwise command the configured constant voltage capped at
the maximum.  Returns the desired voltage and the pump commands. -/
def updateConstantVoltageControl (systemOn : Bool) : ℚ × List PumpCmd :=
  if !systemOn then (0, [PumpCmd.stop])
  else
    let voltageCmd := if kConstantVoltage > BARTELS_MAX_VOLTAGE
      then BARTELS_MAX_VOLTAGE else kConstantVoltage
    (voltageCmd, [PumpCmd.run voltageCmd])

/-! bartels.cpp. -/

/-- bartels.cpp driver statics. -/
structure BartelsState where
  bartelsInited : Bool
  firstRun : Bool
  deriving DecidableEq, Repr

/-- One page-1 waveform write: the amplitude and frequency register bytes. -/
structure WaveWrite where
  amplitude : ℕ
  freqByte : ℕ
  deriving DecidableEq, Repr

/-- bartels.cpp computeFreqByte: OEM truncation of freq / 7.8125 to a byte,
with the zero floor.  The uint8_t cast truncates toward zero. -/
def computeFreqByte (desiredHz : ℚ) : ℕ :=
  let temp := desiredHz / (78125/10000)
  let freqByte := (Int.floor temp).toNat % 256
  if freqByte = 0 then 1 else freqByte

/-- bartels.cpp writeWaveformData (lines 121-152): clamp the amplitude
ratio voltage / BARTELS_ABSOLUTE_MAX into the unit interval, convert to the
0..255 amplitude register byte, and emit the waveform write. -/
def writeWaveformData (voltage : ℚ) (freqByte : ℕ) : WaveWrite :=
  let ratio := voltage / BARTELS_ABSOLUTE_MAX
  let r1 := if ratio < 0 then 0 else ratio
  let r2 := if r1 > 1 then 1 else r1
  { amplitude := (Int.floor (r2 * 255)).toNat, freqByte := freqByte }

/-- bartels.cpp initBartels. -/
def initBartels : BartelsState :=
  { bartelsInited := true, firstRun := true }

/-- bartels.cpp runSequence (lines 55-94): write nothing when the driver
was never initialised; otherwise clamp the voltage into the configured
range, then perform the waveform write (twice on the first run). -/
def runSequence (bs : BartelsState) (voltage : ℚ) :
    BartelsState × List WaveWrite :=
  if !bs.bartelsInited then (bs, [])
  else
    let v1 := if voltage > BARTELS_MAX_VOLTAGE then BARTELS_MAX_VOLTAGE
      else voltage
    let v2 := if v1 < BARTELS_MIN_VOLTAGE then BARTELS_MIN_VOLTAGE else v1
    let freqByte := computeFreqByte BARTELS_FREQ
    if bs.firstRun then
      ({ bs with firstRun := false },
       [writeWaveformData v2 freqByte, writeWaveformData v2 freqByte])
    else (bs, [writeWaveformData v2 freqByte])

/-! Main loop (the .ino sketch). -/

/-- system_state.h control modes (newest revision: EXP and CONST_VOLTAGE). -/
inductive ControlMode where
  | exp : ControlMode
  | constVoltage : ControlMode
  deriving DecidableEq, Repr

/-- Main-loop persistent state: the controller state, the previousSystemOn
static and the control mode stored in the global SystemState. -/
structure LoopState where
  ctrl : CtrlState
  previousSystemOn : Bool
  controlMode : ControlMode
  deriving DecidableEq, Repr

/-- Values the loop stores into the global SystemState at the end of a tick
(step 6), plus the pump commands issued during the tick. -/
structure LoopOut where
  pidOutput : ℚ
  desiredVoltage : ℚ
  pTerm : ℚ
  iTerm : ℚ
  dTerm : ℚ
  cmds : List PumpCmd
  deriving DecidableEq, Repr

/-- Main loop lines 76-88: on an OFF to ON or an ON to OFF edge of the
system-on level, re-init the exp controller; otherwise leave it alone. -/
def powerTransitionStep (ex : ℚ → ℚ) (previousSystemOn currentSystemOn : Bool)
    (cs : CtrlState) (now : ℕ) : CtrlState :=
  if !previousSystemOn && currentSystemOn then initExpController ex cs now
  else if previousSystemOn && !currentSystemOn then
    initExpController ex cs now
  else cs

/-- Main loop lines 91-100: flip the control mode on a toggle press. -/
def modeToggleStep (pressed : Bool) (m : ControlMode) : ControlMode :=
  if pressed then
    match m with
    | ControlMode.exp => ControlMode.constVoltage
    | ControlMode.constVoltage => ControlMode.exp
  else m

/-- One main-loop iteration (loop() steps 2-6): power-edge handling, mode
toggle, controller dispatch when on or pump stop with zeroed outputs when
off, and the values saved into the global SystemState.  Serial and display
sinks and the fatal run-duration timeout are outside this model. -/
def loopTick (ex : ℚ → ℚ) (ls : LoopState)
    (currentSystemOn modeTogglePressed : Bool) (flow setpoint : ℚ)
    (now : ℕ) : LoopState × LoopOut :=
  let cs1 := powerTransitionStep ex ls.previousSystemOn currentSystemOn
    ls.ctrl now
  let mode1 := modeToggleStep modeTogglePressed ls.controlMode
  if currentSystemOn then
    match mode1 with
    | ControlMode.exp =>
      let r := updateExpController ex cs1 flow setpoint true now
      ({ ctrl := r.1, previousSystemOn := currentSystemOn,
         controlMode := mode1 },
       { pidOutput := r.2.pidFraction, desiredVoltage := r.2.desiredVoltage,
         pTerm := r.2.pTermOut, iTerm := r.2.iTermOut, dTerm := r.2.dTermOut,
         cmds := r.2.cmds })
    | ControlMode.constVoltage =>
      let r := updateConstantVoltageControl true
      ({ ctrl := cs1, previousSystemOn := currentSystemOn,
         controlMode := mode1 },
       { pidOutput := 0, desiredVoltage := r.1, pTerm := 0, iTerm := 0,
         dTerm := 0, cmds := r.2 })
  else
    ({ ctrl := cs1, previousSystemOn := currentSystemOn,
       controlMode := mode1 },
     { pidOutput := 0, desiredVoltage := 0, pTerm := 0, iTerm := 0,
       dTerm := 0, cmds := [PumpCmd.stop] })

/-! Helper lemmas. -/

/-- The s_lastKi cache after the rescale block is within 1e-9 of the new ki:
either the changed branch stored ki, or the change test bounded the gap. -/
theorem rescaleIntegrator_snd_close (l k i : ℚ) :
    |(rescaleIntegrator l k i).2 - k| ≤ EPS9 := by
  unfold rescaleIntegrator
  split_ifs with h1 h2
  · norm_num [EPS9]
  · norm_num [EPS9]
  · simpa using not_lt.mp h1

/-! Claim theorems. -/

/-- Claim C9: in every PID update the time step dt used for the integral
increment and as the divisor of the raw derivative is at least 0.001 s: a
zero elapsed millisecond count is floored to 1 ms, so the derivative
division is never a division by zero. -/
theorem updatePIDNormal_dt_floored (st : PIDState) (error : ℚ) (now : ℕ) :
    1/1000 ≤ pidDt now st.lastTimeNormal ∧
    (updatePIDNormal st error now).2.integralTerm
      = st.integralTerm + error * pidDt now st.lastTimeNormal ∧
    (updatePIDNormal st error now).2.dErrorFilteredNormal
      = st.derivFilterAlphaNormal
          * ((error - st.lastError) / pidDt now st.lastTimeNormal)
        + (1 - st.derivFilterAlphaNormal) * st.dErrorFilteredNormal := by
  refine ⟨?_, by simp [updatePIDNormal], by simp [updatePIDNormal]⟩
  simp only [pidDt]
  split_ifs with h
  · norm_num
  · push_neg at h
    have h0 : (0 : ℚ) < ((now - st.lastTimeNormal : ℕ) : ℚ) / 1000 := h
    have h1 : (1 : ℚ) ≤ ((now - st.lastTimeNormal : ℕ) : ℚ) := by
      have : (now - st.lastTimeNormal : ℕ) ≠ 0 := by
        intro hz
        rw [hz] at h0
        norm_num at h0
      exact_mod_cast Nat.one_le_iff_ne_zero.mpr this
    linarith

/-- Claim C3: when the newly scheduled ki differs from the stored previous
Ki by more than 1e-9 and both magnitudes exceed 1e-9, the integrator is
multiplied by previousKi / ki, preserving the integral term value
ki x integrator; when either magnitude is at most 1e-9 the rescale is
skipped and the integrator is unchanged. -/
theorem rescaleIntegrator_preserves_iterm (s_lastKi ki integ : ℚ) :
    (|s_lastKi - ki| > EPS9 → |s_lastKi| > EPS9 → |ki| > EPS9 →
      (rescaleIntegrator s_lastKi ki integ).1 = integ * (s_lastKi / ki) ∧
      ki * (rescaleIntegrator s_lastKi ki integ).1 = s_lastKi * integ) ∧
    (|s_lastKi| ≤ EPS9 ∨ |ki| ≤ EPS9 →
      (rescaleIntegrator s_lastKi ki integ).1 = integ) := by
  constructor
  · intro h1 h2 h3
    have hk : ki ≠ 0 := by
      intro hz
      rw [hz] at h3
      norm_num [EPS9] at h3
    have hfst : (rescaleIntegrator s_lastKi ki integ).1
        = integ * (s_lastKi / ki) := by
      unfold rescaleIntegrator
      simp only [if_pos h1,
        if_pos (show |s_lastKi| > EPS9 ∧ |ki| > EPS9 from ⟨h2, h3⟩)]
    refine ⟨hfst, ?_⟩
    rw [hfst]
    field_simp
    ring
  · intro h
    unfold rescaleIntegrator
    split_ifs with h1 h2
    · rcases h with h | h
      · exact absurd h2.1 (not_lt.mpr h)
      · exact absurd h2.2 (not_lt.mpr h)
    · rfl
    · rfl

/-- Witness for C3, the spec example: previousKi = 2, ki = 1,
integrator = 10 rescales to 20 and preserves the I-term value; and a
near-zero ki (here exactly 0) skips the rescale. -/
theorem rescaleIntegrator_preserves_iterm_witness :
    ((rescaleIntegrator 2 1 10).1 = 10 * (2 / 1) ∧
      1 * (rescaleIntegrator 2 1 10).1 = 2 * 10) ∧
    (rescaleIntegrator 2 0 10).1 = 10 :=
  ⟨(rescaleIntegrator_preserves_iterm 2 1 10).1 (by norm_num [EPS9])
      (by norm_num [EPS9]) (by norm_num [EPS9]),
   (rescaleIntegrator_preserves_iterm 2 0 10).2 (Or.inr (by norm_num [EPS9]))⟩

/-- Claim C5: for every gain curve parameter set and every nonnegative
magnitude, the clamped gain evaluation used by the controller lies in the
closed interval from min A K to max A K. -/
theorem expGainClamped_range (ex : ℚ → ℚ) (A K B C x : ℚ) (_hx : 0 ≤ x) :
    min A K ≤ expGainClamped ex A K B C x ∧
    expGainClamped ex A K B C x ≤ max A K := by
  constructor
  · simp only [expGainClamped]
    split_ifs with h1 h2 h3 h4 h5
    · exact min_le_left A K
    · exact min_le_left A K
    · exact min_le_right A K
    · exact min_le_left A K
    · exact min_le_right A K
    · exact le_trans (min_le_left A K) (not_lt.mp h3)
  · simp only [expGainClamped]
    split_ifs with h1 h2 h3 h4 h5
    · exact le_max_left A K
    · exact le_max_left A K
    · exact le_max_right A K
    · exact le_max_left A K
    · exact le_max_right A K
    · exact le_trans (not_lt.mp h5) (le_max_right A K)

/-- Witness for C5 at the Ki curve parameters and magnitude 1. -/
theorem expGainClamped_range_witness :
    min EXP_KI_A EXP_KI_K
        ≤ expGainClamped (fun _ => 1) EXP_KI_A EXP_KI_K EXP_KI_B EXP_KI_C 1 ∧
    expGainClamped (fun _ => 1) EXP_KI_A EXP_KI_K EXP_KI_B EXP_KI_C 1
        ≤ max EXP_KI_A EXP_KI_K :=
  expGainClamped_range (fun _ => 1) EXP_KI_A EXP_KI_K EXP_KI_B EXP_KI_C 1
    (by norm_num)

/-- Claim C6: whenever the scale B or the denominator B * (x - C) is within
1e-9 of zero, both the gain.cpp curve evaluation and the exp_control.cpp
clamped evaluation return exactly the lower asymptote A; the fallback is a
plain return value, not an error path. -/
theorem gain_guard_returns_A (ex : ℚ → ℚ) (t A K B c : ℚ)
    (h : |B| < EPS9 ∨ |B * (t - c)| < EPS9) :
    exponentialFunctionReciprocal ex t A K B c = A ∧
    expGainClamped ex A K B c t = A := by
  constructor
  · simp only [exponentialFunctionReciprocal]
    rcases h with h | h
    · rw [if_pos h]
    · split_ifs with h1 <;> rfl
  · simp only [expGainClamped]
    rcases h with h | h
    · rw [if_pos h]
    · split_ifs with h1 <;> rfl

/-- Witness for C6 with B = 0. -/
theorem gain_guard_returns_A_witness :
    exponentialFunctionReciprocal (fun _ => 1) 5 (7/2) 9 0 4 = 7/2 ∧
    expGainClamped (fun _ => 1) (7/2) 9 0 4 5 = 7/2 :=
  gain_guard_returns_A (fun _ => 1) 5 (7/2) 9 0 4 (Or.inl (by norm_num [EPS9]))

/-- Claim C7: every OFF to ON or ON to OFF edge of the system-on level
re-inits the exp controller, which zeroes the PID integrator, the error
filter state, the last error, the derivative filter state and the
previous-Ki cache, regardless of their prior values. -/
theorem powerTransitionStep_resets (ex : ℚ → ℚ) (prev cur : Bool)
    (cs : CtrlState) (now : ℕ) (h : prev ≠ cur) :
    (powerTransitionStep ex prev cur cs now).pid.integralTerm = 0 ∧
    (powerTransitionStep ex prev cur cs now).errorFilter.state = 0 ∧
    (powerTransitionStep ex prev cur cs now).pid.lastError = 0 ∧
    (powerTransitionStep ex prev cur cs now).pid.dErrorFilteredNormal = 0 ∧
    (powerTransitionStep ex prev cur cs now).s_lastKi = 0 := by
  cases prev <;> cases cur <;>
    simp_all [powerTransitionStep, initExpController, initPID,
      initDynamicLPFilter]

/-- A controller state with arbitrary nonzero values everywhere, used as a
prior state by concrete instantiations. -/
def garbledState : CtrlState where
  s_lastKi := 7
  g_errSmooth := 3
  s_b2 := 5
  errorFilter := { state := 9, currentAlpha := 1 }
  pid := { Kp := 1, Ki := 2, Kd := 3, derivFilterAlphaNormal := 4/5,
           dErrorFilteredNormal := 6, integralTerm := 42, lastError := 8,
           lastTimeNormal := 11, g_lastIntegralIncrement := 2,
           g_lastErrorForAW := 1 }
  sys := { pGain := 1, iGain := 2, dGain := 3, filteredError := 4,
           currentAlpha := 5 }

/-- Witness for C7: an OFF to ON edge from a garbled prior state. -/
theorem powerTransitionStep_resets_witness :
    (powerTransitionStep (fun q => q) false true garbledState 7).pid.integralTerm = 0 ∧
    (powerTransitionStep (fun q => q) false true garbledState 7).errorFilter.state = 0 ∧
    (powerTransitionStep (fun q => q) false true garbledState 7).pid.lastError = 0 ∧
    (powerTransitionStep (fun q => q) false true garbledState 7).pid.dErrorFilteredNormal = 0 ∧
    (powerTransitionStep (fun q => q) false true garbledState 7).s_lastKi = 0 :=
  powerTransitionStep_resets (fun q => q) false true garbledState 7
    (by decide)

/-- Claim C8: on every tick with the system off, in either control mode,
the loop reports zero output fraction, zero P, I and D terms and zero
voltage, and issues exactly one pump command, a stop: the pump is never
driven with a nonzero command while off. -/
theorem loopTick_off_outputs_zero (ex : ℚ → ℚ) (ls : LoopState) (mt : Bool)
    (flow setpoint : ℚ) (now : ℕ) :
    (loopTick ex ls false mt flow setpoint now).2 =
      { pidOutput := 0, desiredVoltage := 0, pTerm := 0, iTerm := 0,
        dTerm := 0, cmds := [PumpCmd.stop] } := by
  rfl

/-- Amended claim C4: s_lastKi is updated to the newly scheduled ki only
inside the branch where the change test passes; when the test fails it
keeps its prior value, so after every ON-EXP tick the cache is within 1e-9
of the ki stored in the system state. -/
theorem updateExp_lastKi_near_iGain (ex : ℚ → ℚ) (st : CtrlState)
    (flow flowSetpoint : ℚ) (now : ℕ) :
    |(updateExpController ex st flow flowSetpoint true now).1.s_lastKi
      - (updateExpController ex st flow flowSetpoint true now).1.sys.iGain|
      ≤ EPS9 := by
  simp only [updateExpController, Bool.not_true, Bool.false_eq_true,
    if_false]
  exact rescaleIntegrator_snd_close _ _ _

/-- A freshly zeroed controller state with the slope-matching constant
pinned at the config guess value. -/
def zeroedCtrlState : CtrlState where
  s_lastKi := 0
  g_errSmooth := 0
  s_b2 := 3
  errorFilter := { state := 0, currentAlpha := 0 }
  pid := { Kp := 0, Ki := 0, Kd := 0, derivFilterAlphaNormal := 4/5,
           dErrorFilteredNormal := 0, integralTerm := 0, lastError := 0,
           lastTimeNormal := 0, g_lastIntegralIncrement := 0,
           g_lastErrorForAW := 0 }
  sys := { pGain := 0, iGain := 0, dGain := 0, filteredError := 0,
           currentAlpha := 0 }

/-- Prior state for the C4 counterexample: the cached Ki differs from the
value the gain schedule will produce by 1e-10, which is below the 1e-9
change threshold, so the changed branch is not taken. -/
def nearKiState : CtrlState :=
  { zeroedCtrlState with s_lastKi := 1/1000 + 1/10000000000 }

/-- Counterexample to C4 as stated: on a tick with zero raw error the
schedule yields ki = 0.001 exactly (denominator guard), the change test
fails, and s_lastKi keeps its prior value instead of being set to ki.
The exponential stand-in is never consulted on this guarded path. -/
theorem lastKi_not_unconditional :
    (updateExpController (fun _ => 1) nearKiState 0 0 true 1000).1.s_lastKi
      ≠ (updateExpController (fun _ => 1) nearKiState 0 0 true 1000).1.sys.iGain := by
  norm_num [updateExpController, nearKiState, zeroedCtrlState,
    updateDynamicLPFilter, computeAlphaSecondary, getExpKp, getExpKi,
    getExpKd, expGainClamped, rescaleIntegrator, setPIDGains,
    updatePIDNormal, pidDt, saturationClamp, voltageFromFraction,
    abs_of_pos, abs_of_nonneg, EPS9,
    EXP_KI_A, EXP_KI_K, EXP_KI_B, EXP_KI_C, EXP_KP_A, EXP_KP_K, EXP_KP_B,
    EXP_KP_C, EXP_KD_A, EXP_KD_K, EXP_KD_B, EXP_KD_C, FILTER_SECONDARY_A2,
    FILTER_SECONDARY_K2, BARTELS_MAX_VOLTAGE, BARTELS_MIN_VOLTAGE]

/-- Amended claim C2: the smoothed error fed to gain scheduling and to the
PID update on an ON-EXP tick is the output of the adaptive low-pass stage
alone applied to the raw error; the fixed-coefficient EMA second stage is
not applied on this path. -/
theorem updateExp_smoothed_is_stage1_only (ex : ℚ → ℚ) (st : CtrlState)
    (flow flowSetpoint : ℚ) (now : ℕ) :
    (updateExpController ex st flow flowSetpoint true now).1.sys.filteredError
      = (updateDynamicLPFilter ex st.s_b2 st.errorFilter
          (flowSetpoint - flow)).1 ∧
    (updateExpController ex st flow flowSetpoint true now).1.sys.iGain
      = getExpKi ex
          |(updateDynamicLPFilter ex st.s_b2 st.errorFilter
            (flowSetpoint - flow)).1| ∧
    (updateExpController ex st flow flowSetpoint true now).2.pTermOut
      = getExpKp ex
          |(updateDynamicLPFilter ex st.s_b2 st.errorFilter
            (flowSetpoint - flow)).1|
        * (updateDynamicLPFilter ex st.s_b2 st.errorFilter
            (flowSetpoint - flow)).1 := by
  refine ⟨?_, ?_, ?_⟩ <;>
    simp [updateExpController, setPIDGains, updatePIDNormal]

/-- Counterexample to C2 as stated: two ticks from a reset controller with
raw errors 0 and then 1e-10.  Both raw errors sit below the 1e-9 adaptive
pass-through guard, so neither tick consults the exponential on the filter
path.  The code path reports the stage-1 output 1e-10 on the second tick,
while the two-stage composite of the Error Conditioner (EMA stage seeded on
the first call) would report 0.85e-10. -/
theorem smoothedError_lacks_ema_stage :
    (updateExpController (fun _ => 1)
        (updateExpController (fun _ => 1) zeroedCtrlState 0 0 true 100).1
        (-(1/10000000000)) 0 true 200).1.sys.filteredError
      ≠ (updateTwoPoleFilter (fun _ => 1) 3
          (updateTwoPoleFilter (fun _ => 1) 3
            { dyn := { state := 0, currentAlpha := 0 }, ema := resetEMA }
            0).2
          (1/10000000000)).1 := by
  norm_num [updateExpController, updateTwoPoleFilter, updateDynamicLPFilter,
    updateEMA, computeAlphaSecondary, resetEMA, getExpKp, getExpKi,
    getExpKd, expGainClamped, rescaleIntegrator, setPIDGains,
    updatePIDNormal, pidDt, saturationClamp, voltageFromFraction,
    zeroedCtrlState, abs_of_pos, abs_of_nonneg, EPS9, EMA_ALPHA,
    FILTER_SECONDARY_A2, FILTER_SECONDARY_K2, EXP_KI_A, EXP_KI_K, EXP_KI_B,
    EXP_KI_C, EXP_KP_A, EXP_KP_K, EXP_KP_B, EXP_KP_C, EXP_KD_A, EXP_KD_K,
    EXP_KD_B, EXP_KD_C, BARTELS_MAX_VOLTAGE, BARTELS_MIN_VOLTAGE]

/-- Prior state for the C1 evaluation: a large accumulated integrator and a
cached Ki equal to the lower asymptote the schedule will produce. -/
def saturatedState : CtrlState :=
  { zeroedCtrlState with
    s_lastKi := 1/1000
    pid := { zeroedCtrlState.pid with integralTerm := 2000000 } }

/-- Claim C1 (code bug evaluation): a concrete ON-EXP tick whose raw PID
sum P + I + D exceeds 1 reports an output fraction of exactly 1, but the
integrator ends at its pre-tick value PLUS this tick integral increment
error times dt (raw error 1e-11, dt 1 s): the coordinator saturation
branch compares the fraction already clamped to at most 1 inside
updatePIDNormal, so the documented subtraction of the last integral
increment is unreachable and the integrator is never reduced. -/
theorem saturated_tick_keeps_integration :
    ((updateExpController (fun _ => 1) saturatedState 0 (1/100000000000)
        true 1000).2.pTermOut
      + (updateExpController (fun _ => 1) saturatedState 0 (1/100000000000)
          true 1000).2.iTermOut
      + (updateExpController (fun _ => 1) saturatedState 0 (1/100000000000)
          true 1000).2.dTermOut > 1) ∧
    (updateExpController (fun _ => 1) saturatedState 0 (1/100000000000)
        true 1000).2.pidFraction = 1 ∧
    (updateExpController (fun _ => 1) saturatedState 0 (1/100000000000)
        true 1000).1.pid.integralTerm = 2000000 + 1/100000000000 := by
  norm_num [updateExpController, saturatedState, zeroedCtrlState,
    updateDynamicLPFilter, computeAlphaSecondary, getExpKp, getExpKi,
    getExpKd, expGainClamped, rescaleIntegrator, setPIDGains,
    updatePIDNormal, pidDt, saturationClamp, voltageFromFraction,
    abs_of_pos, abs_of_nonneg, EPS9, EXP_KI_A, EXP_KI_K, EXP_KI_B,
    EXP_KI_C, EXP_KP_A, EXP_KP_K, EXP_KP_B, EXP_KP_C, EXP_KD_A, EXP_KD_K,
    EXP_KD_B, EXP_KD_C, FILTER_SECONDARY_A2, FILTER_SECONDARY_K2,
    BARTELS_MAX_VOLTAGE, BARTELS_MIN_VOLTAGE]

/-- The waveform write amplitude byte is the floor of the unit-clamped
amplitude ratio scaled to 255, and never exceeds 255. -/
theorem writeWaveformData_amplitude (voltage : ℚ) (fb : ℕ) :
    (writeWaveformData voltage fb).amplitude
      = (Int.floor
          (min 1 (max 0 (voltage / BARTELS_ABSOLUTE_MAX)) * 255)).toNat ∧
    (writeWaveformData voltage fb).amplitude ≤ 255 := by
  have hr1 : (if voltage / BARTELS_ABSOLUTE_MAX < 0 then 0
        else voltage / BARTELS_ABSOLUTE_MAX)
      = max 0 (voltage / BARTELS_ABSOLUTE_MAX) := by
    rcases lt_or_le (voltage / BARTELS_ABSOLUTE_MAX) 0 with hh | hh
    · rw [if_pos hh, max_eq_left hh.le]
    · rw [if_neg (not_lt.mpr hh), max_eq_right hh]
  have hr2 : (if max 0 (voltage / BARTELS_ABSOLUTE_MAX) > 1 then 1
        else max 0 (voltage / BARTELS_ABSOLUTE_MAX))
      = min 1 (max 0 (voltage / BARTELS_ABSOLUTE_MAX)) := by
    rcases lt_or_le 1 (max 0 (voltage / BARTELS_ABSOLUTE_MAX)) with hh | hh
    · rw [if_pos hh, min_eq_left hh.le]
    · rw [if_neg (not_lt.mpr hh), min_eq_right hh]
  constructor
  · simp only [writeWaveformData, hr1, hr2]
  · simp only [writeWaveformData, hr1, hr2]
    have hle : min 1 (max 0 (voltage / BARTELS_ABSOLUTE_MAX)) * 255
        ≤ (255 : ℚ) := by
      have hm := min_le_left 1 (max 0 (voltage / BARTELS_ABSOLUTE_MAX))
      nlinarith
    have hfl : Int.floor (min 1 (max 0 (voltage / BARTELS_ABSOLUTE_MAX))
        * 255) ≤ (255 : ℤ) := by
      calc Int.floor (min 1 (max 0 (voltage / BARTELS_ABSOLUTE_MAX)) * 255)
            ≤ Int.floor ((255 : ℚ)) := Int.floor_le_floor hle
        _ = 255 := by norm_num
    exact Int.toNat_le.mpr hfl

/-- Claim C10: after initBartels, runSequence clamps the voltage into the
configured range, then clamps the amplitude ratio into the unit interval
before converting it to the amplitude register byte, so every waveform
write carries a byte of at most 255 even for out-of-range inputs; without
initBartels, runSequence writes nothing. -/
theorem runSequence_clamped_bounded (bs : BartelsState) (v : ℚ) :
    (bs.bartelsInited = false → (runSequence bs v).2 = []) ∧
    (bs.bartelsInited = true →
      (runSequence bs v).2 ≠ [] ∧
      ∀ w ∈ (runSequence bs v).2,
        w.amplitude
          = (Int.floor (min 1 (max 0
              ((max BARTELS_MIN_VOLTAGE (min BARTELS_MAX_VOLTAGE v))
                / BARTELS_ABSOLUTE_MAX)) * 255)).toNat ∧
        w.amplitude ≤ 255) := by
  obtain ⟨bi, fr⟩ := bs
  have hmin : (if v > BARTELS_MAX_VOLTAGE then BARTELS_MAX_VOLTAGE else v)
      = min BARTELS_MAX_VOLTAGE v := by
    rcases lt_or_le BARTELS_MAX_VOLTAGE v with hh | hh
    · rw [if_pos hh, min_eq_left hh.le]
    · rw [if_neg (not_lt.mpr hh), min_eq_right hh]
  have hmax : (if min BARTELS_MAX_VOLTAGE v < BARTELS_MIN_VOLTAGE
        then BARTELS_MIN_VOLTAGE else min BARTELS_MAX_VOLTAGE v)
      = max BARTELS_MIN_VOLTAGE (min BARTELS_MAX_VOLTAGE v) := by
    rcases lt_or_le (min BARTELS_MAX_VOLTAGE v) BARTELS_MIN_VOLTAGE
      with hh | hh
    · rw [if_pos hh, max_eq_left hh.le]
    · rw [if_neg (not_lt.mpr hh), max_eq_right hh]
  constructor
  · intro h
    subst h
    simp [runSequence]
  · intro h
    subst h
    cases fr <;>
      simp only [runSequence, Bool.not_true, Bool.false_eq_true, if_false,
        eq_self_iff_true, if_true, hmin, hmax] <;>
      constructor
    · simp
    · intro w hw
      simp only [List.mem_singleton] at hw
      subst hw
      exact writeWaveformData_amplitude _ _
    · simp
    · intro w hw
      simp only [List.mem_cons, List.not_mem_nil, or_false] at hw
      rcases hw with hw | hw <;> subst hw <;>
        exact writeWaveformData_amplitude _ _

/-- Witness for C10: an out-of-range request of 999 V writes nothing on an
uninitialised driver and a bounded byte on an initialised one. -/
theorem runSequence_clamped_bounded_witness :
    (runSequence { bartelsInited := false, firstRun := true } 999).2
      = [] ∧
    ((runSequence { bartelsInited := true, firstRun := false } 999).2
        ≠ [] ∧
      ∀ w ∈ (runSequence { bartelsInited := true, firstRun := false }
          999).2,
        w.amplitude
          = (Int.floor (min 1 (max 0
              ((max BARTELS_MIN_VOLTAGE (min BARTELS_MAX_VOLTAGE 999))
                / BARTELS_ABSOLUTE_MAX)) * 255)).toNat ∧
        w.amplitude ≤ 255) :=
  ⟨(runSequence_clamped_bounded
      { bartelsInited := false, firstRun := true } 999).1 rfl,
   (runSequence_clamped_bounded
      { bartelsInited := true, firstRun := false } 999).2 rfl⟩
